import Mathlib

/-!
Verification of the training controller in `src/deeplearn.c` (libdeep).

Modelling conventions:
* C `float` values are modelled as `Int`.  The controller never performs
  floating-point arithmetic on them: it only copies them, compares them with
  `==`/`!=`/`<`, and tests them against the UNKNOWN sentinel, so any linearly
  ordered type with decidable equality embeds the orchestration layer.
* C `int` fields are modelled as `Int`, C `unsigned int` fields as `Nat`
  (with the saturation bound `UINT_MAX = 2^32 - 1` made explicit).
* The backprop engine (`struct bp` and the `bp_*` functions, file
  `backprop.c`, not part of the sources) is external to the core; it is
  modelled as an opaque state `bp` together with an environment `Env` of
  arbitrary functions consumed only through their signatures, as the spec
  prescribes for the Network collaborator.
* A saved file is a list of typed items (`Item`); a Network blob written by
  `bp_save` is carried opaquely and re-materialised through `Env.bp_load`.
-/

namespace Libdeep

/-- Modelled from the spec: the UNKNOWN-error sentinel
`DEEPLEARN_UNKNOWN_ERROR`, defined in the header `deeplearn.h` which is not
among the sources; the spec describes it only as a distinguished sentinel
value, so any fixed value serves. -/
def DEEPLEARN_UNKNOWN_ERROR : Int := 9999

/-- `UINT_MAX` for the 32-bit `unsigned int` of the original platform. -/
def UINT_MAX : Nat := 4294967295

/-- The external Network state (`struct bp` of `backprop.c`, outside the
sources).  Only the fields the controller reads are named; everything else
(weights, unit activations, ...) is collapsed into the opaque `state`. -/
structure bp where
  HiddenLayers : Int
  BPerrorAverage : Int
  itterations : Nat
  state : Int
deriving DecidableEq

instance : Inhabited bp := ⟨⟨0, 0, 0, 0⟩⟩

/-- The external Network capability (`bp_*` functions of `backprop.c`).
`bp_pretrain net autocoder layer` returns the updated `(net, autocoder)`
pair; `bp_load` materialises the network saved as a blob. -/
structure Env where
  bp_init : Int → Int → Int → Int → Nat → bp
  bp_pretrain : bp → bp → Int → bp × bp
  bp_update : bp → bp
  bp_create_autocoder : bp → Int → bp
  bp_update_from_autocoder : bp → bp → Int → bp
  bp_load : bp → bp
  bp_compare : bp → bp → Int

/-- The deep-learner controller state (`struct deeplearn`).  The fixed
buffer `float history[DEEPLEARN_HISTORY_SIZE]` is a list whose length is the
capacity constant. -/
structure deeplearn where
  training_complete : Int
  itterations : Nat
  current_hidden_layer : Int
  BPerror : Int
  net : bp
  autocoder : Option bp
  error_threshold : List Int
  history_index : Int
  history_ctr : Int
  history_step : Int
  history : List Int
deriving DecidableEq

/-- One iteration of the compaction loop body
`learner->history[i/2] = learner->history[i]`. -/
def compactStep (h : List Int) (i : Nat) : List Int :=
  h.set (i / 2) (h.getD i 0)

/-- The compaction loop `for (i = 0; i < n; i++) history[i/2] = history[i]`,
reading from the partially overwritten buffer exactly as the C loop does. -/
def compactLoop (h : List Int) : Nat → List Int
  | 0 => h
  | n + 1 => compactStep (compactLoop h n) n

/-- `deeplean_update_history` (sic, the source's name).  `HSIZE` is the
capacity constant `DEEPLEARN_HISTORY_SIZE`; it is defined in the missing
header `deeplearn.h`, which the spec describes only as a compile-time
constant `C`, so it is taken as a parameter. -/
def deeplean_update_history (HSIZE : Nat) (l : deeplearn) : deeplearn :=
  let ctr := l.history_ctr + 1
  if l.history_step ≤ ctr then
    let error_value := if l.BPerror = DEEPLEARN_UNKNOWN_ERROR then 0 else l.BPerror
    let h := l.history.set l.history_index.toNat error_value
    let idx := l.history_index + 1
    if (HSIZE : Int) ≤ idx then
      { l with
        history := compactLoop h idx.toNat
        history_index := Int.tdiv idx 2
        history_ctr := 0
        history_step := l.history_step * 2 }
    else
      { l with history := h, history_index := idx, history_ctr := 0 }
  else
    { l with history_ctr := ctr }

/-- `deeplearn_init`.  `junk` models the values the `memcpy` over-read
produces when the caller's threshold array is shorter than
`hidden_layers+1` (the C code performs no length check); `hist0` is the
uninitialised contents of the fixed `history` buffer, which `init` does not
clear. -/
def deeplearn_init (env : Env)
    (no_of_inputs no_of_hiddens hidden_layers no_of_outputs : Int)
    (error_threshold : List Int) (random_seed : Nat)
    (junk : Int) (hist0 : List Int) : deeplearn :=
  let thr := (List.range (hidden_layers + 1).toNat).map
    (fun i => error_threshold.getD i junk)
  let net := env.bp_init no_of_inputs no_of_hiddens hidden_layers
    no_of_outputs random_seed
  let ac := env.bp_create_autocoder net 0
  { training_complete := 0
    itterations := 0
    current_hidden_layer := 0
    BPerror := DEEPLEARN_UNKNOWN_ERROR
    net := net
    autocoder := some ac
    error_threshold := thr
    history_index := 0
    history_ctr := 0
    history_step := 1
    history := hist0 }

/-- The saturating increment `if (net->itterations < UINT_MAX)
net->itterations++` at the end of `deeplearn_update`. -/
def bumpItt (b : bp) : bp :=
  if b.itterations < UINT_MAX then { b with itterations := b.itterations + 1 } else b

/-- The branch body of `deeplearn_update`: pretraining (with possible layer
promotion) when `current_hidden_layer < net->HiddenLayers`, ordinary
fine-tuning otherwise.  Dereferencing the autocoder pointer is modelled by
`Option.getD default` (the C code would dereference null if it were
absent). -/
def deeplearn_update_branch (env : Env) (l : deeplearn) : deeplearn :=
  let max_backprop_error := l.error_threshold.getD l.current_hidden_layer.toNat 0
  if l.current_hidden_layer < l.net.HiddenLayers then
    let p := env.bp_pretrain l.net (l.autocoder.getD default) l.current_hidden_layer
    if p.2.BPerrorAverage ≠ DEEPLEARN_UNKNOWN_ERROR ∧
        p.2.BPerrorAverage < max_backprop_error ∧
        100 < p.2.itterations then
      let n2 := env.bp_update_from_autocoder p.1 p.2 l.current_hidden_layer
      { l with
        net := n2
        autocoder :=
          if l.current_hidden_layer + 1 < n2.HiddenLayers then
            some (env.bp_create_autocoder n2 (l.current_hidden_layer + 1))
          else none
        current_hidden_layer := l.current_hidden_layer + 1
        BPerror := DEEPLEARN_UNKNOWN_ERROR }
    else
      { l with net := p.1, autocoder := some p.2, BPerror := p.2.BPerrorAverage }
  else
    let n := env.bp_update l.net
    { l with
      net := n
      BPerror := n.BPerrorAverage
      training_complete :=
        if n.BPerrorAverage < max_backprop_error then 1 else l.training_complete }

/-- `deeplearn_update`: no-op when `training_complete == 1`, otherwise the
phase branch, then the history update, then the saturating increment of the
target network's step counter. -/
def deeplearn_update (env : Env) (HSIZE : Nat) (l : deeplearn) : deeplearn :=
  if l.training_complete = 1 then l
  else
    let l1 := deeplean_update_history HSIZE (deeplearn_update_branch env l)
    { l1 with net := bumpItt l1.net }

/-- One field of the persisted byte stream.  C `fwrite`/`fread` move raw
bytes; the tags record the width/interpretation each call uses, and a
Network section written by `bp_save` is carried as an opaque blob. -/
inductive Item where
  | int (v : Int)
  | uint (v : Nat)
  | flt (v : Int)
  | netblob (b : bp)
deriving DecidableEq

/-- `deeplearn_save`: the exact field order of the C function. -/
def deeplearn_save (l : deeplearn) : List Item :=
  [Item.int l.training_complete, Item.uint l.itterations,
    Item.int l.current_hidden_layer, Item.flt l.BPerror,
    Item.netblob l.net]
  ++ (match l.autocoder with
      | some a => [Item.int 1, Item.netblob a]
      | none => [Item.int 0])
  ++ (List.range (l.net.HiddenLayers + 1).toNat).map
      (fun i => Item.flt (l.error_threshold.getD i 0))
  ++ [Item.int l.history_index, Item.int l.history_ctr, Item.int l.history_step]
  ++ (List.range l.history_index.toNat).map
      (fun i => Item.flt (l.history.getD i 0))

/-- `fread` of one `int`: on success the value, the rest of the stream and
return value 1; on underrun the destination keeps its old value and the
return value is 0. -/
def readI : List Item → Int → Int × List Item × Int
  | Item.int v :: rest, _ => (v, rest, 1)
  | s, old => (old, s, 0)

/-- `fread` of one `unsigned int`. -/
def readU : List Item → Nat → Nat × List Item × Int
  | Item.uint v :: rest, _ => (v, rest, 1)
  | s, old => (old, s, 0)

/-- `fread` of one `float`. -/
def readF : List Item → Int → Int × List Item × Int
  | Item.flt v :: rest, _ => (v, rest, 1)
  | s, old => (old, s, 0)

/-- `bp_load` into freshly `malloc`ed memory: on success the materialised
network, on underrun the uninitialised allocation (`old`). -/
def readNet (env : Env) : List Item → bp → bp × List Item × Int
  | Item.netblob b :: rest, _ => (env.bp_load b, rest, 1)
  | s, old => (old, s, 0)

/-- Counted `fread` of `float` elements: reads up to `n` values and returns
the values read, the rest of the stream, and the element count actually
read (the C return value). -/
def readFloats : List Item → Nat → List Int × List Item × Int
  | s, 0 => ([], s, 0)
  | Item.flt v :: rest, n + 1 =>
    let r := readFloats rest n
    (v :: r.1, r.2.1, r.2.2 + 1)
  | s, _ + 1 => ([], s, 0)

/-- `fread` of a counted prefix into an existing buffer: the values read
overwrite the front, the tail keeps its previous contents. -/
def writePrefix (buf vals : List Int) : List Int :=
  vals ++ buf.drop vals.length

/-- `deeplearn_load`: the exact read order of the C function, threaded over
the stream.  `l0` is the (uninitialised) learner being loaded into; a
failed read leaves the corresponding field at its previous value, exactly
as a failed `fread` leaves its destination.  The returned `Int` is the C
return value: the value of the **last** `fread` only. -/
def deeplearn_load (env : Env) (s0 : List Item) (l0 : deeplearn) :
    deeplearn × Int :=
  let r1 := readI s0 l0.training_complete
  let r2 := readU r1.2.1 l0.itterations
  let r3 := readI r2.2.1 l0.current_hidden_layer
  let r4 := readF r3.2.1 l0.BPerror
  let r5 := readNet env r4.2.1 default
  let r6 := readI r5.2.1 0
  let acr : Option bp × List Item :=
    if r6.1 = 1 then
      let r := readNet env r6.2.1 default
      (some r.1, r.2.1)
    else (none, r6.2.1)
  let r7 := readFloats acr.2 (r5.1.HiddenLayers + 1).toNat
  let r8 := readI r7.2.1 l0.history_index
  let r9 := readI r8.2.1 l0.history_ctr
  let r10 := readI r9.2.1 l0.history_step
  let r11 := readFloats r10.2.1 r8.1.toNat
  ({ training_complete := r1.1
     itterations := r2.1
     current_hidden_layer := r3.1
     BPerror := r4.1
     net := r5.1
     autocoder := acr.1
     error_threshold := r7.1
     history_index := r8.1
     history_ctr := r9.1
     history_step := r10.1
     history := writePrefix l0.history r11.1 }, r11.2.2)

/-- `deeplearn_compare`, with the external `bp_compare` passed in. -/
def deeplearn_compare (bpc : bp → bp → Int) (l1 l2 : deeplearn) : Int :=
  if l1.current_hidden_layer ≠ l2.current_hidden_layer then -1
  else if l1.BPerror ≠ l2.BPerror then -2
  else if bpc l1.net l2.net < 1 then -3
  else if l1.autocoder.isSome ≠ l2.autocoder.isSome then -4
  else if l1.history_index ≠ l2.history_index then -5
  else if l1.history_ctr ≠ l2.history_ctr then -6
  else if l1.history_step ≠ l2.history_step then -7
  else if ¬ ∀ i ∈ List.range l1.history_index.toNat,
      l1.history.getD i 0 = l2.history.getD i 0 then -8
  else if l1.itterations ≠ l2.itterations then -9
  else if ¬ ∀ i ∈ List.range (l1.net.HiddenLayers + 1).toNat,
      l1.error_threshold.getD i 0 = l2.error_threshold.getD i 0 then -10
  else 1

/-- States reachable from a given state by `deeplearn_update` steps. -/
inductive ReachableFrom (env : Env) (HSIZE : Nat) (l0 : deeplearn) :
    deeplearn → Prop where
  | refl : ReachableFrom env HSIZE l0 l0
  | step : ∀ l, ReachableFrom env HSIZE l0 l →
      ReachableFrom env HSIZE l0 (deeplearn_update env HSIZE l)

/-- States reachable by `deeplearn_init` followed by any number of
`deeplearn_update` steps (the history buffer of the learner handed to
`init` has the fixed capacity length). -/
def Reachable (env : Env) (HSIZE : Nat) (l : deeplearn) : Prop :=
  ∃ ni nh hl no thr seed junk hist0, (hist0 : List Int).length = HSIZE ∧
    ReachableFrom env HSIZE (deeplearn_init env ni nh hl no thr seed junk hist0) l

/-- The Network contract of the spec: the engine's training operations do
not change the network's hidden-layer count. -/
def EnvPreservesLayers (env : Env) : Prop :=
  (∀ n a i, ((env.bp_pretrain n a i).1).HiddenLayers = n.HiddenLayers) ∧
  (∀ n, (env.bp_update n).HiddenLayers = n.HiddenLayers) ∧
  (∀ n a i, (env.bp_update_from_autocoder n a i).HiddenLayers = n.HiddenLayers)

/-- The promotion test of `deeplearn_update` (source lines 161–163), on the
post-`bp_pretrain` autocoder. -/
def promoteFires (env : Env) (l : deeplearn) (ac : bp) : Prop :=
  (env.bp_pretrain l.net ac l.current_hidden_layer).2.BPerrorAverage
      ≠ DEEPLEARN_UNKNOWN_ERROR ∧
  (env.bp_pretrain l.net ac l.current_hidden_layer).2.BPerrorAverage <
    l.error_threshold.getD l.current_hidden_layer.toNat 0 ∧
  100 < (env.bp_pretrain l.net ac l.current_hidden_layer).2.itterations

instance (env : Env) (l : deeplearn) (ac : bp) :
    Decidable (promoteFires env l ac) := by
  unfold promoteFires; infer_instance

/-- The target network after `bp_update_from_autocoder` transfers the
trained autocoder's hidden units into it (source line 166). -/
def promotedNet (env : Env) (l : deeplearn) (ac : bp) : bp :=
  env.bp_update_from_autocoder
    (env.bp_pretrain l.net ac l.current_hidden_layer).1
    (env.bp_pretrain l.net ac l.current_hidden_layer).2
    l.current_hidden_layer

/-- The HistoryRecorder invariant: the write index stays inside the buffer
and the stride is a power of two. -/
def HistInv (HSIZE : Nat) (l : deeplearn) : Prop :=
  0 ≤ l.history_index ∧ l.history_index < (HSIZE : Int) ∧
    ∃ k, l.history_step = 2 ^ k

/-- The autocoder-lifecycle invariant: the autocoder is present iff the
current layer is still below the network's hidden-layer count. -/
def AcInv (l : deeplearn) : Prop :=
  l.autocoder.isSome ↔ l.current_hidden_layer < l.net.HiddenLayers

/-- A concrete Network engine, used to instantiate the theorems on explicit
inputs: `bp_init` reports the requested hidden-layer count, the training
operations are inert, loading is the identity, comparison always succeeds. -/
def envC : Env where
  bp_init := fun _ _ hl _ _ => ⟨hl, 0, 0, 5⟩
  bp_pretrain := fun n a _ => (n, a)
  bp_update := fun n => n
  bp_create_autocoder := fun _ _ => ⟨0, 0, 0, 1⟩
  bp_update_from_autocoder := fun n _ _ => n
  bp_load := fun b => b
  bp_compare := fun _ _ => 1

/-- A concrete Network engine whose pretraining step reports a low stable
error after many autocoder steps, so the promotion test fires. -/
def envC2 : Env where
  bp_init := fun _ _ hl _ _ => ⟨hl, 0, 0, 5⟩
  bp_pretrain := fun n a _ => (n, { a with BPerrorAverage := 1, itterations := 200 })
  bp_update := fun n => n
  bp_create_autocoder := fun _ _ => ⟨0, 0, 0, 1⟩
  bp_update_from_autocoder := fun n _ _ => n
  bp_load := fun b => b
  bp_compare := fun _ _ => 1

/-- A freshly constructed learner: 10 inputs, 4 hidden units, 2 hidden
layers, 2 outputs. -/
def LC1 : deeplearn := deeplearn_init envC 10 4 2 2 [1, 1, 1] 0 0 [0, 0, 0, 0]

/-- A learner constructed under `envC2`, one update away from promotion. -/
def LC2 : deeplearn := deeplearn_init envC2 10 4 2 2 [5, 5, 5] 0 0 [0, 0, 0, 0]

/-- The autocoder `deeplearn_init` builds under `envC2`. -/
def acC2 : bp := ⟨0, 0, 0, 1⟩

/-- An uninitialised learner as handed to `deeplearn_load` (arbitrary stale
field contents, history buffer of the fixed capacity 4). -/
def L00 : deeplearn :=
  ⟨9, 9, 9, 9, ⟨0, 0, 0, 0⟩, none, [], 9, 9, 9, [7, 7, 7, 7]⟩

/-- A learner one record away from compaction at capacity 4: the buffer
holds [10, 20, 30, _] and the next recorded error is 40. -/
def LH : deeplearn :=
  { training_complete := 0, itterations := 0, current_hidden_layer := 0,
    BPerror := 40, net := ⟨2, 0, 0, 0⟩, autocoder := none,
    error_threshold := [1, 1, 1], history_index := 3, history_ctr := 0,
    history_step := 1, history := [10, 20, 30, 0] }

/-- A learner with two stored history samples, used to truncate its saved
stream inside the samples. -/
def LS : deeplearn :=
  { training_complete := 1, itterations := 7, current_hidden_layer := 2,
    BPerror := 5, net := ⟨2, 3, 4, 5⟩, autocoder := none,
    error_threshold := [1, 2, 3], history_index := 2, history_ctr := 0,
    history_step := 1, history := [8, 9, 0, 0] }

/-- A learner constructed with zero hidden layers. -/
def L9 : deeplearn := deeplearn_init envC 10 4 0 2 [1] 0 0 [0, 0, 0, 0]

/-! ### Helper lemmas -/

lemma getD_map_range (f : Nat → Int) (n i : Nat) (h : i < n) :
    ((List.range n).map f).getD i 0 = f i := by
  rw [List.getD_eq_getElem?_getD, List.getElem?_map, List.getElem?_range h]
  rfl

lemma compactLoop_length (h : List Int) (n : Nat) :
    (compactLoop h n).length = h.length := by
  induction n with
  | zero => rfl
  | succ m ih => simp [compactLoop, compactStep, List.length_set, ih]

lemma compactLoop_getD_ge (h : List Int) (n m : Nat) (hm : n ≤ m) :
    (compactLoop h n).getD m 0 = h.getD m 0 := by
  induction n with
  | zero => rfl
  | succ k ih =>
    have hne : k / 2 ≠ m := by omega
    simp only [compactLoop, compactStep]
    rw [List.getD_eq_getElem?_getD, List.getElem?_set_ne hne,
      ← List.getD_eq_getElem?_getD]
    exact ih (by omega)

lemma compactLoop_getD_odd (h : List Int) (k : Nat) (hk : k < h.length) :
    ∀ n, 2 * k + 2 ≤ n → (compactLoop h n).getD k 0 = h.getD (2 * k + 1) 0 := by
  intro n
  induction n with
  | zero => omega
  | succ m ih =>
    intro hn
    simp only [compactLoop]
    by_cases hm : 2 * k + 2 ≤ m
    · have hne : m / 2 ≠ k := by omega
      simp only [compactStep]
      rw [List.getD_eq_getElem?_getD, List.getElem?_set_ne hne,
        ← List.getD_eq_getElem?_getD]
      exact ih hm
    · have hm2 : m = 2 * k + 1 := by omega
      have hdiv : m / 2 = k := by omega
      have hlen : k < (compactLoop h m).length := by
        rw [compactLoop_length]; exact hk
      simp only [compactStep, hdiv]
      rw [List.getD_eq_getElem?_getD, List.getElem?_set_self hlen,
        Option.getD_some, hm2]
      exact compactLoop_getD_ge h (2 * k + 1) (2 * k + 1) le_rfl

lemma update_history_keeps (HSIZE : Nat) (x : deeplearn) :
    (deeplean_update_history HSIZE x).training_complete = x.training_complete ∧
    (deeplean_update_history HSIZE x).itterations = x.itterations ∧
    (deeplean_update_history HSIZE x).current_hidden_layer = x.current_hidden_layer ∧
    (deeplean_update_history HSIZE x).BPerror = x.BPerror ∧
    (deeplean_update_history HSIZE x).net = x.net ∧
    (deeplean_update_history HSIZE x).autocoder = x.autocoder ∧
    (deeplean_update_history HSIZE x).error_threshold = x.error_threshold := by
  simp only [deeplean_update_history]
  split_ifs <;> simp

lemma branch_keeps (env : Env) (x : deeplearn) :
    (deeplearn_update_branch env x).itterations = x.itterations ∧
    (deeplearn_update_branch env x).history_index = x.history_index ∧
    (deeplearn_update_branch env x).history_ctr = x.history_ctr ∧
    (deeplearn_update_branch env x).history_step = x.history_step ∧
    (deeplearn_update_branch env x).history = x.history ∧
    (deeplearn_update_branch env x).error_threshold = x.error_threshold := by
  simp only [deeplearn_update_branch]
  split_ifs <;> simp

lemma readFloats_append (vs : List Int) (rest : List Item) :
    readFloats (vs.map Item.flt ++ rest) vs.length = (vs, rest, (vs.length : Int)) := by
  induction vs with
  | nil => simp [readFloats]
  | cons v t ih =>
    simp only [List.map_cons, List.cons_append, List.length_cons, readFloats,
      List.append_eq]
    rw [ih]
    simp

lemma readFloats_map_range (f : Nat → Int) (n : Nat) (rest : List Item) :
    readFloats (((List.range n).map fun i => Item.flt (f i)) ++ rest) n =
      ((List.range n).map f, rest, (n : Int)) := by
  have h := readFloats_append ((List.range n).map f) rest
  simpa [List.map_map, Function.comp_def] using h

lemma readFloats_map_range0 (f : Nat → Int) (n : Nat) :
    readFloats ((List.range n).map fun i => Item.flt (f i)) n =
      ((List.range n).map f, [], (n : Int)) := by
  have h := readFloats_map_range f n []
  simpa using h

/-- Loading a saved learner reproduces every persisted field: the Network
blobs come back through `Env.bp_load`, and the loaded history is the saved
prefix written over the fresh learner's buffer. -/
lemma load_save (env : Env) (l l0 : deeplearn)
    (hload : ∀ b, (env.bp_load b).HiddenLayers = b.HiddenLayers) :
    (deeplearn_load env (deeplearn_save l) l0).1 =
      { training_complete := l.training_complete
        itterations := l.itterations
        current_hidden_layer := l.current_hidden_layer
        BPerror := l.BPerror
        net := env.bp_load l.net
        autocoder := l.autocoder.map env.bp_load
        error_threshold := (List.range (l.net.HiddenLayers + 1).toNat).map
          (fun i => l.error_threshold.getD i 0)
        history_index := l.history_index
        history_ctr := l.history_ctr
        history_step := l.history_step
        history := writePrefix l0.history
          ((List.range l.history_index.toNat).map
            (fun i => l.history.getD i 0)) } := by
  rcases hac : l.autocoder with _ | a <;>
    simp only [deeplearn_save, hac, List.cons_append, List.nil_append,
        List.append_assoc, deeplearn_load, readI, readU, readF, readNet, hload,
        readFloats_map_range, readFloats_map_range0, Option.map_some,
        Option.map_none, reduceIte, Int.reduceEq] <;>
    simp

/-- A saved learner loads back compare-equal, given the Network collaborator's
own round-trip contract. -/
lemma round_trip_general (env : Env) (l l0 : deeplearn)
    (hload : ∀ b, (env.bp_load b).HiddenLayers = b.HiddenLayers)
    (hcmp : ∀ b, 1 ≤ env.bp_compare b (env.bp_load b)) :
    deeplearn_compare env.bp_compare l (deeplearn_load env (deeplearn_save l) l0).1 = 1 := by
  rw [load_save env l l0 hload]
  have hh : ∀ i ∈ List.range l.history_index.toNat,
      l.history.getD i 0 =
        (writePrefix l0.history ((List.range l.history_index.toNat).map
          (fun j => l.history.getD j 0))).getD i 0 := by
    intro i hi
    simp only [List.mem_range] at hi
    rw [writePrefix, List.getD_append _ _ _ _ (by simpa using hi),
      getD_map_range _ _ _ hi]
  have ht : ∀ i ∈ List.range (l.net.HiddenLayers + 1).toNat,
      l.error_threshold.getD i 0 =
        ((List.range (l.net.HiddenLayers + 1).toNat).map
          (fun j => l.error_threshold.getD j 0)).getD i 0 := by
    intro i hi
    simp only [List.mem_range] at hi
    rw [getD_map_range _ _ _ hi]
  have hc := hcmp l.net
  unfold deeplearn_compare
  split_ifs with h1 h2 h3 h4 h5 h6 h7 h8
  · exact absurd rfl h1
  · exact absurd rfl h2
  · exfalso; simp only [] at h3; omega
  · exfalso; apply h4; cases l.autocoder <;> rfl
  · exact absurd rfl h5
  · exact absurd rfl h6
  · exact absurd rfl h7
  · exact absurd rfl h8
  · rfl

/-- `deeplearn_compare` succeeds when all ten compared conditions hold. -/
lemma compare_eq_one (bpc : bp → bp → Int) (l1 l2 : deeplearn)
    (c1 : l1.current_hidden_layer = l2.current_hidden_layer)
    (c2 : l1.BPerror = l2.BPerror)
    (c3 : 1 ≤ bpc l1.net l2.net)
    (c4 : l1.autocoder.isSome = l2.autocoder.isSome)
    (c5 : l1.history_index = l2.history_index)
    (c6 : l1.history_ctr = l2.history_ctr)
    (c7 : l1.history_step = l2.history_step)
    (c8 : ∀ i ∈ List.range l1.history_index.toNat,
      l1.history.getD i 0 = l2.history.getD i 0)
    (c9 : l1.itterations = l2.itterations)
    (c10 : ∀ i ∈ List.range (l1.net.HiddenLayers + 1).toNat,
      l1.error_threshold.getD i 0 = l2.error_threshold.getD i 0) :
    deeplearn_compare bpc l1 l2 = 1 := by
  unfold deeplearn_compare
  split_ifs <;> first | rfl | (exfalso; omega) | (exfalso; tauto)

/-- When training is not complete, `deeplearn_update`'s result is the branch
result with history updated and the network step counter bumped; the
non-history branch fields pass through unchanged. -/
lemma update_fields (env : Env) (HSIZE : Nat) (l : deeplearn)
    (htc : l.training_complete ≠ 1) :
    (deeplearn_update env HSIZE l).current_hidden_layer
        = (deeplearn_update_branch env l).current_hidden_layer ∧
    (deeplearn_update env HSIZE l).autocoder
        = (deeplearn_update_branch env l).autocoder ∧
    (deeplearn_update env HSIZE l).BPerror
        = (deeplearn_update_branch env l).BPerror ∧
    (deeplearn_update env HSIZE l).net
        = bumpItt (deeplearn_update_branch env l).net ∧
    (deeplearn_update env HSIZE l).itterations = l.itterations ∧
    (deeplearn_update env HSIZE l).training_complete
        = (deeplearn_update_branch env l).training_complete := by
  have h : deeplearn_update env HSIZE l =
      { deeplean_update_history HSIZE (deeplearn_update_branch env l) with
        net := bumpItt
          (deeplean_update_history HSIZE (deeplearn_update_branch env l)).net } := by
    simp [deeplearn_update, htc]
  obtain ⟨b1, b2, b3, b4, b5, b6⟩ := branch_keeps env l
  obtain ⟨k1, k2, k3, k4, k5, k6, k7⟩ :=
    update_history_keeps HSIZE (deeplearn_update_branch env l)
  rw [h]
  exact ⟨by simp [k3], by simp [k6], by simp [k4], by simp [k5],
    by simp [k2, b1], by simp [k1]⟩

lemma bumpItt_HiddenLayers (b : bp) : (bumpItt b).HiddenLayers = b.HiddenLayers := by
  unfold bumpItt; split_ifs <;> rfl

/-- C2: during a pretraining-phase `deeplearn_update`, layer promotion fires
iff the post-pretrain running-average error is not the UNKNOWN sentinel, is
strictly below `error_threshold[current_hidden_layer]`, and the autocoder
has taken strictly more than 100 steps; when it fires, the autocoder's
weights are transferred into the target network at that layer, the
autocoder is released, the layer index is incremented, a new autocoder is
constructed exactly when the new index is still below the hidden-layer
count, and the error is reset to UNKNOWN. -/
theorem C2_promotion (env : Env) (HSIZE : Nat) (l : deeplearn) (ac : bp)
    (htc : l.training_complete ≠ 1)
    (hpre : l.current_hidden_layer < l.net.HiddenLayers)
    (hac : l.autocoder = some ac)
    (hpl : EnvPreservesLayers env) :
    ((deeplearn_update env HSIZE l).current_hidden_layer
        = l.current_hidden_layer + 1 ↔ promoteFires env l ac) ∧
    (promoteFires env l ac →
      (deeplearn_update env HSIZE l).BPerror = DEEPLEARN_UNKNOWN_ERROR ∧
      (deeplearn_update env HSIZE l).net = bumpItt (promotedNet env l ac) ∧
      (deeplearn_update env HSIZE l).autocoder =
        (if l.current_hidden_layer + 1 < l.net.HiddenLayers then
          some (env.bp_create_autocoder (promotedNet env l ac)
            (l.current_hidden_layer + 1))
        else none)) ∧
    (¬ promoteFires env l ac →
      (deeplearn_update env HSIZE l).current_hidden_layer = l.current_hidden_layer ∧
      (deeplearn_update env HSIZE l).autocoder =
        some (env.bp_pretrain l.net ac l.current_hidden_layer).2 ∧
      (deeplearn_update env HSIZE l).BPerror =
        (env.bp_pretrain l.net ac l.current_hidden_layer).2.BPerrorAverage) := by
  obtain ⟨uc, ua, ub, un, ui, ut⟩ := update_fields env HSIZE l htc
  have hHL : (promotedNet env l ac).HiddenLayers = l.net.HiddenLayers := by
    unfold promotedNet
    rw [hpl.2.2, hpl.1]
  rw [uc, ua, ub, un]
  simp only [deeplearn_update_branch, if_pos hpre, hac, Option.getD_some]
  by_cases hfire : promoteFires env l ac
  · have hf0 := hfire
    unfold promoteFires at hfire
    rw [if_pos hfire]
    refine ⟨⟨fun _ => hf0, fun _ => rfl⟩, fun _ => ⟨rfl, rfl, ?_⟩,
      fun h => absurd hf0 h⟩
    show (if l.current_hidden_layer + 1 < (promotedNet env l ac).HiddenLayers then
        some (env.bp_create_autocoder (promotedNet env l ac)
          (l.current_hidden_layer + 1))
      else none) = _
    rw [hHL]
  · have hf0 := hfire
    unfold promoteFires at hfire
    rw [if_neg hfire]
    refine ⟨⟨fun h => ?_, fun h => absurd h hf0⟩, fun h => absurd h hf0,
      fun _ => ⟨rfl, rfl, rfl⟩⟩
    exfalso
    have h' : l.current_hidden_layer = l.current_hidden_layer + 1 := h
    omega

lemma update_history_HistInv (HSIZE : Nat) (hH : 1 ≤ HSIZE) (x : deeplearn)
    (hx : HistInv HSIZE x) : HistInv HSIZE (deeplean_update_history HSIZE x) := by
  obtain ⟨h0, h1, k, hk⟩ := hx
  simp only [deeplean_update_history]
  by_cases hrec : x.history_step ≤ x.history_ctr + 1
  · rw [if_pos hrec]
    by_cases hcap : (HSIZE : Int) ≤ x.history_index + 1
    · rw [if_pos hcap]
      have he : x.history_index + 1 = (HSIZE : Int) := le_antisymm (by omega) hcap
      have hdiv : Int.tdiv ((HSIZE : Nat) : Int) 2 = ((HSIZE / 2 : Nat) : Int) := rfl
      refine ⟨?_, ?_, ⟨k + 1, ?_⟩⟩
      · show 0 ≤ Int.tdiv (x.history_index + 1) 2
        rw [he, hdiv]
        omega
      · show Int.tdiv (x.history_index + 1) 2 < (HSIZE : Int)
        rw [he, hdiv]
        have hlt : HSIZE / 2 < HSIZE := by omega
        exact_mod_cast hlt
      · show x.history_step * 2 = 2 ^ (k + 1)
        rw [hk, pow_succ]
    · rw [if_neg hcap]
      exact ⟨show (0 : Int) ≤ x.history_index + 1 by omega,
        show x.history_index + 1 < (HSIZE : Int) by omega, ⟨k, hk⟩⟩
  · rw [if_neg hrec]
    exact ⟨h0, h1, ⟨k, hk⟩⟩

lemma reachable_HistInv (env : Env) (HSIZE : Nat) (hH : 1 ≤ HSIZE)
    (l0 l : deeplearn) (h0 : HistInv HSIZE l0)
    (hr : ReachableFrom env HSIZE l0 l) : HistInv HSIZE l := by
  induction hr with
  | refl => exact h0
  | step m hm ih =>
    by_cases htc : m.training_complete = 1
    · simpa [deeplearn_update, htc] using ih
    · have hb := branch_keeps env m
      have hbi : HistInv HSIZE (deeplearn_update_branch env m) := by
        obtain ⟨a1, a2, a3⟩ := ih
        exact ⟨by rw [hb.2.1]; exact a1, by rw [hb.2.1]; exact a2,
          by rw [hb.2.2.2.1]; exact a3⟩
      have h2 := update_history_HistInv HSIZE hH _ hbi
      have hu : deeplearn_update env HSIZE m =
          { deeplean_update_history HSIZE (deeplearn_update_branch env m) with
            net := bumpItt
              (deeplean_update_history HSIZE (deeplearn_update_branch env m)).net } := by
        simp [deeplearn_update, htc]
      rw [hu]
      exact ⟨h2.1, h2.2.1, h2.2.2⟩

lemma branch_AcInv (env : Env) (hpl : EnvPreservesLayers env)
    (m : deeplearn) (hm : AcInv m) : AcInv (deeplearn_update_branch env m) := by
  obtain ⟨hp1, hp2, hp3⟩ := hpl
  by_cases hpre : m.current_hidden_layer < m.net.HiddenLayers
  · obtain ⟨a, ha⟩ := Option.isSome_iff_exists.mp (hm.mpr hpre)
    simp only [deeplearn_update_branch, if_pos hpre, ha, Option.getD_some]
    split_ifs with hfire hnew
    · simp [AcInv, hnew]
    · simp [AcInv, hnew]
    · simp [AcInv, hp1, hpre]
  · simp only [deeplearn_update_branch, if_neg hpre]
    simp only [AcInv, hp2]
    exact hm

lemma update_AcInv (env : Env) (HSIZE : Nat) (hpl : EnvPreservesLayers env)
    (m : deeplearn) (hm : AcInv m) : AcInv (deeplearn_update env HSIZE m) := by
  by_cases htc : m.training_complete = 1
  · simpa [deeplearn_update, htc] using hm
  · obtain ⟨uc, ua, ub, un, ui, ut⟩ := update_fields env HSIZE m htc
    have hb := branch_AcInv env hpl m hm
    simp only [AcInv] at hb ⊢
    rw [uc, ua, un, bumpItt_HiddenLayers]
    exact hb

lemma update_autocoder_finetune (env : Env) (HSIZE : Nat) (m : deeplearn)
    (h : ¬ m.current_hidden_layer < m.net.HiddenLayers) :
    (deeplearn_update env HSIZE m).autocoder = m.autocoder := by
  by_cases htc : m.training_complete = 1
  · simp [deeplearn_update, htc]
  · have hb : (deeplearn_update_branch env m).autocoder = m.autocoder := by
      simp only [deeplearn_update_branch, if_neg h]
    rw [(update_fields env HSIZE m htc).2.1, hb]

lemma reachable_AcInv (env : Env) (HSIZE : Nat) (hpl : EnvPreservesLayers env)
    (l0 l : deeplearn) (h0 : AcInv l0)
    (hr : ReachableFrom env HSIZE l0 l) : AcInv l := by
  induction hr with
  | refl => exact h0
  | step m hm ih => exact update_AcInv env HSIZE hpl m ih

lemma envC_preserves : EnvPreservesLayers envC :=
  ⟨fun _ _ _ => rfl, fun _ => rfl, fun _ _ _ => rfl⟩

lemma envC2_preserves : EnvPreservesLayers envC2 :=
  ⟨fun _ _ _ => rfl, fun _ => rfl, fun _ _ _ => rfl⟩

/-! ### Claims -/

/-- C1: for every learner state reachable by `deeplearn_init` followed by
any sequence of `deeplearn_update` steps, writing the learner with
`deeplearn_save` and reading the resulting stream into a fresh learner with
`deeplearn_load` yields `deeplearn_compare (original, loaded) = 1`, given
the external Network collaborator's own save/load round-trip contract
(`bp_load` of a saved blob reports the same hidden-layer count and passes
`bp_compare`). -/
theorem C1_save_load_round_trip (env : Env) (HSIZE : Nat) (l l0 : deeplearn)
    (hreach : Reachable env HSIZE l)
    (hload : ∀ b, (env.bp_load b).HiddenLayers = b.HiddenLayers)
    (hcmp : ∀ b, 1 ≤ env.bp_compare b (env.bp_load b)) :
    deeplearn_compare env.bp_compare l
      (deeplearn_load env (deeplearn_save l) l0).1 = 1 :=
  round_trip_general env l l0 hload hcmp

/-- Witness for C1 at a concrete freshly constructed learner. -/
theorem C1_save_load_round_trip_witness :
    Reachable envC 4 LC1 ∧
    deeplearn_compare envC.bp_compare LC1
      (deeplearn_load envC (deeplearn_save LC1) L00).1 = 1 := by
  have hreach : Reachable envC 4 LC1 :=
    ⟨10, 4, 2, 2, [1, 1, 1], 0, 0, [0, 0, 0, 0], rfl, ReachableFrom.refl⟩
  exact ⟨hreach, C1_save_load_round_trip envC 4 LC1 L00 hreach
    (fun _ => rfl) (fun _ => le_refl 1)⟩

/-- Witness for C2: under `envC2` the promotion test fires and the layer
index advances. -/
theorem C2_promotion_witness :
    (deeplearn_update envC2 4 LC2).current_hidden_layer =
      LC2.current_hidden_layer + 1 :=
  ((C2_promotion envC2 4 LC2 acC2 (by decide) (by decide) rfl
    envC2_preserves).1).mpr (by decide)

/-- C3 counterexample: at capacity 4 with pre-compaction buffer
[10, 20, 30, 40], the compacted samples[0] is 20 — the pre-compaction
samples[1] — not samples[2·0] = 10 as the claim states. -/
theorem C3_counterexample :
    (deeplean_update_history 4 LH).history.getD 0 0 ≠
      (LH.history.set LH.history_index.toNat
        (if LH.BPerror = DEEPLEARN_UNKNOWN_ERROR then 0 else LH.BPerror)).getD
        (2 * 0) 0 := by
  decide

/-- C3 (amended): when the write index reaches capacity `C`, the record
operation compacts in place keeping the ODD-indexed entries — for every
`k < C/2` the new `samples[k]` equals the pre-compaction `samples[2k+1]`
(the loop `samples[i/2] = samples[i]` writes `i = 2k` first and then
overwrites with `i = 2k+1`) — then the write index is halved and the
stride doubled. -/
theorem C3_compaction (HSIZE : Nat) (l : deeplearn)
    (hlen : l.history.length = HSIZE)
    (hidx : l.history_index + 1 = (HSIZE : Int))
    (h0 : 0 ≤ l.history_index)
    (hrec : l.history_step ≤ l.history_ctr + 1) :
    (∀ k : Nat, k < HSIZE / 2 →
      (deeplean_update_history HSIZE l).history.getD k 0 =
        (l.history.set l.history_index.toNat
          (if l.BPerror = DEEPLEARN_UNKNOWN_ERROR then 0 else l.BPerror)).getD
          (2 * k + 1) 0) ∧
    (deeplean_update_history HSIZE l).history_index = ((HSIZE / 2 : Nat) : Int) ∧
    (deeplean_update_history HSIZE l).history_step = l.history_step * 2 := by
  have hcap : (HSIZE : Int) ≤ l.history_index + 1 := le_of_eq hidx.symm
  simp only [deeplean_update_history]
  rw [if_pos hrec, if_pos hcap]
  refine ⟨?_, ?_, rfl⟩
  · intro k hk
    have hidxN : (l.history_index + 1).toNat = HSIZE := by omega
    show (compactLoop
        (l.history.set l.history_index.toNat
          (if l.BPerror = DEEPLEARN_UNKNOWN_ERROR then 0 else l.BPerror))
        (l.history_index + 1).toNat).getD k 0 = _
    rw [hidxN]
    apply compactLoop_getD_odd
    · rw [List.length_set, hlen]
      omega
    · omega
  · show Int.tdiv (l.history_index + 1) 2 = ((HSIZE / 2 : Nat) : Int)
    rw [hidx]
    rfl

/-- Witness for the amended C3 at the concrete learner `LH`, `k = 0`. -/
theorem C3_compaction_witness :
    (deeplean_update_history 4 LH).history.getD 0 0 =
      (LH.history.set LH.history_index.toNat
        (if LH.BPerror = DEEPLEARN_UNKNOWN_ERROR then 0 else LH.BPerror)).getD
        (2 * 0 + 1) 0 :=
  (C3_compaction 4 LH (by decide) (by decide) (by decide) (by decide)).1 0
    (by decide)

/-- C4 counterexample: constructing with 2 hidden layers but a 1-element
threshold array does not fail and does not withhold allocation — the
autocoder is allocated and the copied threshold array carries the
over-read junk values. -/
theorem C4_counterexample :
    (deeplearn_init envC 10 4 2 2 [5] 0 7 [0, 0, 0, 0]).autocoder.isSome = true ∧
    (deeplearn_init envC 10 4 2 2 [5] 0 7 [0, 0, 0, 0]).error_threshold
      = [5, 7, 7] := by
  decide

/-- C4 (amended): `deeplearn_init` performs no threshold-length validation
at all: for a threshold array of any length it unconditionally copies
`hidden_layers + 1` values (reading past the end of a shorter array) and
allocates both the target network and the autocoder; there is no failure
path and no `InvalidConfig` error. -/
theorem C4_no_length_check (env : Env)
    (ni nh hl no : Int) (thr : List Int) (seed : Nat) (junk : Int)
    (hist0 : List Int) :
    (deeplearn_init env ni nh hl no thr seed junk hist0).net
        = env.bp_init ni nh hl no seed ∧
    (deeplearn_init env ni nh hl no thr seed junk hist0).autocoder
        = some (env.bp_create_autocoder (env.bp_init ni nh hl no seed) 0) ∧
    (deeplearn_init env ni nh hl no thr seed junk hist0).error_threshold.length
        = (hl + 1).toNat := by
  refine ⟨rfl, rfl, ?_⟩
  simp [deeplearn_init]

/-- C5: the code at the failing input.  `LS` stores two history samples;
its saved stream truncated one item early still ends with a final `fread`
that read one element, so `deeplearn_load` returns 1 — the non-zero
success convention — although the stream underran. -/
theorem C5_truncated_load_returns_success :
    (deeplearn_load envC ((deeplearn_save LS).dropLast) L00).2 = 1 ∧
    (deeplearn_load envC ((deeplearn_save LS).dropLast) L00).1.history_index
      = 2 := by
  decide

set_option maxHeartbeats 1000000 in
/-- C6: `deeplearn_compare` returns the success code 1 exactly when, in
order, the two learners agree on `current_hidden_layer`, `BPerror`
bit-for-bit, the delegated network check, autocoder presence, the three
history fields, every stored sample up to the write index, `itterations`,
and every threshold entry; the first mismatch stops the comparison with a
distinct negative code for that field. -/
theorem C6_compare_order (bpc : bp → bp → Int) (l1 l2 : deeplearn) :
    (deeplearn_compare bpc l1 l2 = 1 ↔
      (l1.current_hidden_layer = l2.current_hidden_layer ∧
       l1.BPerror = l2.BPerror ∧
       1 ≤ bpc l1.net l2.net ∧
       l1.autocoder.isSome = l2.autocoder.isSome ∧
       l1.history_index = l2.history_index ∧
       l1.history_ctr = l2.history_ctr ∧
       l1.history_step = l2.history_step ∧
       (∀ i ∈ List.range l1.history_index.toNat,
         l1.history.getD i 0 = l2.history.getD i 0) ∧
       l1.itterations = l2.itterations ∧
       ∀ i ∈ List.range (l1.net.HiddenLayers + 1).toNat,
         l1.error_threshold.getD i 0 = l2.error_threshold.getD i 0)) ∧
    (l1.current_hidden_layer ≠ l2.current_hidden_layer →
      deeplearn_compare bpc l1 l2 = -1) ∧
    (l1.current_hidden_layer = l2.current_hidden_layer →
      l1.BPerror ≠ l2.BPerror →
      deeplearn_compare bpc l1 l2 = -2) ∧
    (l1.current_hidden_layer = l2.current_hidden_layer →
      l1.BPerror = l2.BPerror →
      bpc l1.net l2.net < 1 →
      deeplearn_compare bpc l1 l2 = -3) ∧
    (l1.current_hidden_layer = l2.current_hidden_layer →
      l1.BPerror = l2.BPerror →
      1 ≤ bpc l1.net l2.net →
      l1.autocoder.isSome ≠ l2.autocoder.isSome →
      deeplearn_compare bpc l1 l2 = -4) ∧
    (l1.current_hidden_layer = l2.current_hidden_layer →
      l1.BPerror = l2.BPerror →
      1 ≤ bpc l1.net l2.net →
      l1.autocoder.isSome = l2.autocoder.isSome →
      l1.history_index ≠ l2.history_index →
      deeplearn_compare bpc l1 l2 = -5) ∧
    (l1.current_hidden_layer = l2.current_hidden_layer →
      l1.BPerror = l2.BPerror →
      1 ≤ bpc l1.net l2.net →
      l1.autocoder.isSome = l2.autocoder.isSome →
      l1.history_index = l2.history_index →
      l1.history_ctr ≠ l2.history_ctr →
      deeplearn_compare bpc l1 l2 = -6) ∧
    (l1.current_hidden_layer = l2.current_hidden_layer →
      l1.BPerror = l2.BPerror →
      1 ≤ bpc l1.net l2.net →
      l1.autocoder.isSome = l2.autocoder.isSome →
      l1.history_index = l2.history_index →
      l1.history_ctr = l2.history_ctr →
      l1.history_step ≠ l2.history_step →
      deeplearn_compare bpc l1 l2 = -7) ∧
    (l1.current_hidden_layer = l2.current_hidden_layer →
      l1.BPerror = l2.BPerror →
      1 ≤ bpc l1.net l2.net →
      l1.autocoder.isSome = l2.autocoder.isSome →
      l1.history_index = l2.history_index →
      l1.history_ctr = l2.history_ctr →
      l1.history_step = l2.history_step →
      ¬ (∀ i ∈ List.range l1.history_index.toNat,
        l1.history.getD i 0 = l2.history.getD i 0) →
      deeplearn_compare bpc l1 l2 = -8) ∧
    (l1.current_hidden_layer = l2.current_hidden_layer →
      l1.BPerror = l2.BPerror →
      1 ≤ bpc l1.net l2.net →
      l1.autocoder.isSome = l2.autocoder.isSome →
      l1.history_index = l2.history_index →
      l1.history_ctr = l2.history_ctr →
      l1.history_step = l2.history_step →
      (∀ i ∈ List.range l1.history_index.toNat,
        l1.history.getD i 0 = l2.history.getD i 0) →
      l1.itterations ≠ l2.itterations →
      deeplearn_compare bpc l1 l2 = -9) ∧
    (l1.current_hidden_layer = l2.current_hidden_layer →
      l1.BPerror = l2.BPerror →
      1 ≤ bpc l1.net l2.net →
      l1.autocoder.isSome = l2.autocoder.isSome →
      l1.history_index = l2.history_index →
      l1.history_ctr = l2.history_ctr →
      l1.history_step = l2.history_step →
      (∀ i ∈ List.range l1.history_index.toNat,
        l1.history.getD i 0 = l2.history.getD i 0) →
      l1.itterations = l2.itterations →
      ¬ (∀ i ∈ List.range (l1.net.HiddenLayers + 1).toNat,
        l1.error_threshold.getD i 0 = l2.error_threshold.getD i 0) →
      deeplearn_compare bpc l1 l2 = -10) := by
  refine ⟨?_, ?_, ?_, ?_, ?_, ?_, ?_, ?_, ?_, ?_, ?_⟩
  · unfold deeplearn_compare
    split_ifs with h1 h2 h3 h4 h5 h6 h7 h8 h9 h10
    · exact ⟨fun habs => absurd habs (by decide), fun hc => absurd hc.1 h1⟩
    · exact ⟨fun habs => absurd habs (by decide), fun hc => absurd hc.2.1 h2⟩
    · exact ⟨fun habs => absurd habs (by decide),
        fun hc => absurd h3 (not_lt.mpr hc.2.2.1)⟩
    · exact ⟨fun habs => absurd habs (by decide), fun hc => absurd hc.2.2.2.1 h4⟩
    · exact ⟨fun habs => absurd habs (by decide),
        fun hc => absurd hc.2.2.2.2.1 h5⟩
    · exact ⟨fun habs => absurd habs (by decide),
        fun hc => absurd hc.2.2.2.2.2.1 h6⟩
    · exact ⟨fun habs => absurd habs (by decide),
        fun hc => absurd hc.2.2.2.2.2.2.1 h7⟩
    · exact ⟨fun habs => absurd habs (by decide),
        fun hc => absurd hc.2.2.2.2.2.2.2.2.1 h9⟩
    · exact ⟨fun _ => ⟨not_not.mp h1, not_not.mp h2, not_lt.mp h3,
        not_not.mp h4, not_not.mp h5, not_not.mp h6, not_not.mp h7, h8,
        not_not.mp h9, h10⟩, fun _ => rfl⟩
    · exact ⟨fun habs => absurd habs (by decide),
        fun hc => absurd hc.2.2.2.2.2.2.2.2.2 h10⟩
    · exact ⟨fun habs => absurd habs (by decide),
        fun hc => absurd hc.2.2.2.2.2.2.2.1 h8⟩
  · intro h1
    unfold deeplearn_compare
    split_ifs <;> first | rfl | (exfalso; omega) | (exfalso; tauto)
  · intro c1 h2
    unfold deeplearn_compare
    split_ifs <;> first | rfl | (exfalso; omega) | (exfalso; tauto)
  · intro c1 c2 h3
    unfold deeplearn_compare
    split_ifs <;> first | rfl | (exfalso; omega) | (exfalso; tauto)
  · intro c1 c2 c3 h4
    unfold deeplearn_compare
    split_ifs <;> first | rfl | (exfalso; omega) | (exfalso; tauto)
  · intro c1 c2 c3 c4 h5
    unfold deeplearn_compare
    split_ifs <;> first | rfl | (exfalso; omega) | (exfalso; tauto)
  · intro c1 c2 c3 c4 c5 h6
    unfold deeplearn_compare
    split_ifs <;> first | rfl | (exfalso; omega) | (exfalso; tauto)
  · intro c1 c2 c3 c4 c5 c6 h7
    unfold deeplearn_compare
    split_ifs <;> first | rfl | (exfalso; omega) | (exfalso; tauto)
  · intro c1 c2 c3 c4 c5 c6 c7 h8
    unfold deeplearn_compare
    split_ifs <;> first | rfl | (exfalso; omega) | (exfalso; tauto)
  · intro c1 c2 c3 c4 c5 c6 c7 c8 h9
    unfold deeplearn_compare
    split_ifs <;> first | rfl | (exfalso; omega) | (exfalso; tauto)
  · intro c1 c2 c3 c4 c5 c6 c7 c8 c9 h10
    unfold deeplearn_compare
    split_ifs <;> first | rfl | (exfalso; omega) | (exfalso; tauto)

/-- Witness for C6: equal learners compare as 1; a layer-index mismatch
yields -1. -/
theorem C6_compare_order_witness :
    deeplearn_compare (fun _ _ => 1) LC1 LC1 = 1 ∧
    deeplearn_compare (fun _ _ => 1) LC1 LS = -1 :=
  ⟨(C6_compare_order (fun _ _ => 1) LC1 LC1).1.mpr (by decide),
    (C6_compare_order (fun _ _ => 1) LC1 LS).2.1 (by decide)⟩

/-- C7 counterexample: one update on a freshly constructed learner (training
incomplete, counter 0, far below `UINT_MAX`) leaves the learner's own
`itterations` field — the counter persisted as the second field of the save
layout — unchanged rather than incrementing it. -/
theorem C7_counterexample :
    LC1.training_complete ≠ 1 ∧ LC1.itterations < UINT_MAX ∧
    (deeplearn_update envC 4 LC1).itterations ≠ LC1.itterations + 1 := by
  decide

/-- C7 (amended): `deeplearn_update` never touches the learner's own
`itterations` field (the counter persisted as the second field of the save
layout, shown by the second conjunct); the saturating increment — +1 when
below `UINT_MAX`, unchanged at `UINT_MAX` — is applied to the target
network's `itterations` counter instead. -/
theorem C7_step_counter (env : Env) (HSIZE : Nat) (l : deeplearn) :
    (deeplearn_update env HSIZE l).itterations = l.itterations ∧
    (deeplearn_save l).getD 1 (Item.int 0) = Item.uint l.itterations ∧
    (l.training_complete ≠ 1 →
      (deeplearn_update env HSIZE l).net =
        bumpItt (deeplean_update_history HSIZE (deeplearn_update_branch env l)).net) := by
  refine ⟨?_, rfl, fun htc => ?_⟩
  · by_cases htc : l.training_complete = 1
    · simp [deeplearn_update, htc]
    · exact (update_fields env HSIZE l htc).2.2.2.2.1
  · rw [(update_history_keeps HSIZE (deeplearn_update_branch env l)).2.2.2.2.1]
    exact (update_fields env HSIZE l htc).2.2.2.1

/-- Witness for the amended C7 at a concrete learner. -/
theorem C7_step_counter_witness :
    (deeplearn_update envC 4 LC1).itterations = LC1.itterations ∧
    (deeplearn_update envC 4 LC1).net =
      bumpItt (deeplean_update_history 4 (deeplearn_update_branch envC LC1)).net :=
  ⟨(C7_step_counter envC 4 LC1).1, (C7_step_counter envC 4 LC1).2.2 (by decide)⟩

/-- C8: for any number of update steps after `deeplearn_init`, the number of
stored history samples (`history_index`) never exceeds the capacity
constant, and the stride is always a power of two times its initial
value 1. -/
theorem C8_history_bound (env : Env) (HSIZE : Nat) (l : deeplearn)
    (hH : 1 ≤ HSIZE) (hr : Reachable env HSIZE l) :
    l.history_index ≤ (HSIZE : Int) ∧ ∃ k, l.history_step = 2 ^ k := by
  obtain ⟨ni, nh, hl, no, thr, seed, junk, hist0, hlen, hfrom⟩ := hr
  have h0 : HistInv HSIZE (deeplearn_init env ni nh hl no thr seed junk hist0) :=
    ⟨le_refl 0, show (0 : Int) < (HSIZE : Int) by omega, 0, rfl⟩
  have hinv := reachable_HistInv env HSIZE hH _ l h0 hfrom
  exact ⟨le_of_lt hinv.2.1, hinv.2.2⟩

/-- Witness for C8 at a concrete learner. -/
theorem C8_history_bound_witness :
    LC1.history_index ≤ ((4 : Nat) : Int) ∧ ∃ k, LC1.history_step = 2 ^ k :=
  C8_history_bound envC 4 LC1 (by decide)
    ⟨10, 4, 2, 2, [1, 1, 1], 0, 0, [0, 0, 0, 0], rfl, ReachableFrom.refl⟩

/-- C9 counterexample: a learner constructed with zero hidden layers has an
autocoder although `current_hidden_layer` is already not below the
hidden-layer count — `deeplearn_init` creates the autocoder
unconditionally. -/
theorem C9_counterexample :
    L9.autocoder.isSome = true ∧
    ¬ L9.current_hidden_layer < L9.net.HiddenLayers := by
  decide

/-- C9 (amended): for a learner constructed with at least one hidden layer,
in every reachable state the autocoder is present iff
`current_hidden_layer < hiddenLayerCount`; once absent (after the final
promotion) it stays absent through every later update.  (With zero hidden
layers `deeplearn_init` still creates an autocoder, which is never
released.) -/
theorem C9_autocoder_lifecycle (env : Env) (HSIZE : Nat)
    (ni nh hl no : Int) (thr : List Int) (seed : Nat) (junk : Int)
    (hist0 : List Int) (l : deeplearn)
    (hpl : EnvPreservesLayers env)
    (hinit : (env.bp_init ni nh hl no seed).HiddenLayers = hl)
    (hhl : 1 ≤ hl)
    (hr : ReachableFrom env HSIZE
      (deeplearn_init env ni nh hl no thr seed junk hist0) l) :
    (l.autocoder.isSome ↔ l.current_hidden_layer < l.net.HiddenLayers) ∧
    (l.autocoder = none → (deeplearn_update env HSIZE l).autocoder = none) := by
  have h0 : AcInv (deeplearn_init env ni nh hl no thr seed junk hist0) := by
    simp only [AcInv, deeplearn_init]
    refine ⟨fun _ => ?_, fun _ => rfl⟩
    show (0 : Int) < (env.bp_init ni nh hl no seed).HiddenLayers
    rw [hinit]
    omega
  have hinv := reachable_AcInv env HSIZE hpl _ l h0 hr
  refine ⟨hinv, fun hnone => ?_⟩
  have hge : ¬ l.current_hidden_layer < l.net.HiddenLayers := by
    intro hlt
    have hs := hinv.mpr hlt
    rw [hnone] at hs
    simp at hs
  rw [update_autocoder_finetune env HSIZE l hge, hnone]

/-- Witness for the amended C9 at a concrete learner. -/
theorem C9_autocoder_lifecycle_witness :
    (LC1.autocoder.isSome ↔ LC1.current_hidden_layer < LC1.net.HiddenLayers) ∧
    (LC1.autocoder = none → (deeplearn_update envC 4 LC1).autocoder = none) :=
  C9_autocoder_lifecycle envC 4 10 4 2 2 [1, 1, 1] 0 0 [0, 0, 0, 0] LC1
    envC_preserves rfl (by decide) ReachableFrom.refl

/-- C10: `deeplearn_compare` never inspects `training_complete`: two
learners identical in every compared field but differing in that flag still
compare as 1 — even though the flag is the first field written by
`deeplearn_save` (second conjunct). -/
theorem C10_compare_ignores_training_complete (bpc : bp → bp → Int)
    (l : deeplearn) (b1 b2 : Int) (hcmp : 1 ≤ bpc l.net l.net) :
    deeplearn_compare bpc { l with training_complete := b1 }
      { l with training_complete := b2 } = 1 ∧
    (deeplearn_save { l with training_complete := b1 }).getD 0 (Item.uint 0)
      = Item.int b1 := by
  exact ⟨compare_eq_one bpc _ _ rfl rfl hcmp rfl rfl rfl rfl
    (fun i _ => rfl) rfl (fun i _ => rfl), rfl⟩

/-- Witness for C10 at a concrete learner. -/
theorem C10_compare_ignores_training_complete_witness :
    deeplearn_compare (fun _ _ => 1) { LC1 with training_complete := 0 }
      { LC1 with training_complete := 1 } = 1 :=
  (C10_compare_ignores_training_complete (fun _ _ => 1) LC1 0 1 (le_refl 1)).1

end Libdeep
